import Mathlib

/-!
# Verification of the insurance-claim evaluation core

A shallow embedding, in Lean 4, of the claim-evaluation core of the
`InsuranceEnd2EndProject` repository:

* `backend/utils/safe_json.py` — defensive JSON extraction (`safe_json_parse`);
* `backend/agents/llm_validation_agent.py` — deterministic pre-validation
  (`_prevalidate`), the text-only presence merge, and the final merge engine;
* `backend/agents/fraud_agent.py` — the hybrid fraud scorer;
* `backend/agents/manager_agent.py` — the final decision state machine
  (`ManagerAgent.finalize_claim`).

Conventions of the embedding:

* Python strings are Lean `String`s.  The Python primitives used by the
  source (`in` substring test, `.strip()`, `.lower()`, `.upper()`,
  `sorted(list(set(...)))`) are re-implemented below on `List Char` so that
  the kernel can evaluate them (`pyIn`, `pyStrip`, `pyLower`, `pyUpper`,
  `pySortedSet`).  The sources only ever apply `.lower()`/`.upper()` to
  ASCII text, so the ASCII case maps are faithful.
* Python floats are embedded as exact rationals (`ℚ`).  Float literals are
  written with `Rat.divInt` (e.g. `0.6` becomes `Rat.divInt 3 5`) because
  those terms reduce inside the kernel; the intended decimal value is noted
  at each site.
* `datetime` values are embedded as `Int` ordinals: the only operation the
  source performs on them is `<` comparison.
* Regular-expression helpers (`re.search`/`re.findall` based extractors and
  `json.loads`) are not re-implemented; they are passed in as oracle
  functions (`Extractors`, `FraudOracles`, `JsonOracles`).  Every theorem
  quantifies over all oracle behaviours, hence over all behaviours of the
  real regex/JSON primitives.
* Mutation of the Python `ClaimState` object is embedded as explicit state
  passing: each agent takes and returns a `ClaimState` record.
-/

set_option maxRecDepth 4096

/-! ## Python string primitives -/

/-- ASCII lower-casing of a character, as `str.lower` acts on ASCII input. -/
def asciiLower (c : Char) : Char :=
  if 65 ≤ c.toNat ∧ c.toNat ≤ 90 then Char.ofNat (c.toNat + 32) else c

/-- ASCII upper-casing of a character, as `str.upper` acts on ASCII input. -/
def asciiUpper (c : Char) : Char :=
  if 97 ≤ c.toNat ∧ c.toNat ≤ 122 then Char.ofNat (c.toNat - 32) else c

/-- Python `s.lower()` (ASCII fragment). -/
def pyLower (s : String) : String := ⟨s.data.map asciiLower⟩

/-- Python `s.upper()` (ASCII fragment). -/
def pyUpper (s : String) : String := ⟨s.data.map asciiUpper⟩

/-- Python whitespace, as recognised by `str.strip()`. -/
def isPyWhitespace (c : Char) : Bool :=
  c = ' ' || c = '\t' || c = '\n' || c = '\x0d' || c = '\x0b' || c = '\x0c'

/-- Python `s.strip()`: drop leading and trailing whitespace. -/
def pyStrip (s : String) : String :=
  ⟨((s.data.dropWhile isPyWhitespace).reverse.dropWhile isPyWhitespace).reverse⟩

/-- Does `pat` occur at the start of `l`? (helper for the substring test). -/
def charStartsWith : List Char → List Char → Bool
  | [], _ => true
  | _ :: _, [] => false
  | a :: as, b :: bs => a == b && charStartsWith as bs

/-- Does `pat` occur somewhere inside `l`? (helper for the substring test). -/
def charContains (pat : List Char) : List Char → Bool
  | [] => charStartsWith pat []
  | b :: bs => charStartsWith pat (b :: bs) || charContains pat bs

/-- Python `needle in hay` on strings. -/
def pyIn (needle hay : String) : Bool := charContains needle.data hay.data

/-- Lexicographic comparison of character lists by code point — the order
Python uses to compare strings. -/
def charListLe : List Char → List Char → Bool
  | [], _ => true
  | _ :: _, [] => false
  | a :: as, b :: bs =>
    if a.toNat < b.toNat then true
    else if b.toNat < a.toNat then false
    else charListLe as bs

/-- Python `a <= b` on strings. -/
def strLe (a b : String) : Bool := charListLe a.data b.data

/-- Insert into a sorted list (helper for `pySortedSet`). -/
def insertSorted (a : String) : List String → List String
  | [] => [a]
  | b :: bs => if strLe a b then a :: b :: bs else b :: insertSorted a bs

/-- Insertion sort by `strLe` (helper for `pySortedSet`). -/
def insertionSort : List String → List String
  | [] => []
  | a :: as => insertSorted a (insertionSort as)

/-- Python `sorted(list(set(xs)))`: the elements of `xs`, without
duplicates, in lexicographic order.  On a duplicate-free list every sort
agrees, so insertion sort realises exactly Python's result. -/
def pySortedSet (xs : List String) : List String := insertionSort xs.dedup

/-! ## Data model

`backend/state/claim_state.py` itself is not part of the provided sources;
the `ClaimState` and `ValidationResult` records below are modelled from the
spec's data model (ClaimFacts, Findings, FraudAssessment, ClaimDecision)
and from the fields the provided agents read and write. -/

/-- The six mandatory document kinds. -/
inductive DocLabel where
  | FIR
  | DRIVING_LICENSE
  | RC_BOOK
  | POLICY_COPY
  | REPAIR_ESTIMATE
  | ACCIDENT_PHOTOS
deriving DecidableEq

/-- The label string used for a document kind in the Python dicts/lists. -/
def DocLabel.str : DocLabel → String
  | .FIR => "FIR"
  | .DRIVING_LICENSE => "DRIVING_LICENSE"
  | .RC_BOOK => "RC_BOOK"
  | .POLICY_COPY => "POLICY_COPY"
  | .REPAIR_ESTIMATE => "REPAIR_ESTIMATE"
  | .ACCIDENT_PHOTOS => "ACCIDENT_PHOTOS"

/-- `MANDATORY_DOC_MARKERS` of `llm_validation_agent.py`: section marker
text paired with its label. -/
def MANDATORY_DOC_MARKERS : List (String × DocLabel) :=
  [("=== FIR ===", .FIR),
   ("=== DRIVING_LICENSE ===", .DRIVING_LICENSE),
   ("=== RC_BOOK ===", .RC_BOOK),
   ("=== POLICY_COPY ===", .POLICY_COPY),
   ("=== REPAIR_ESTIMATE ===", .REPAIR_ESTIMATE),
   ("=== ACCIDENT_PHOTOS ===", .ACCIDENT_PHOTOS)]

/-- The six labels in marker order (the loops `for _, label in
MANDATORY_DOC_MARKERS` of the source). -/
def mandatoryLabels : List DocLabel := MANDATORY_DOC_MARKERS.map (fun ml => ml.2)

/-- `ValidationResult` of `backend/state/claim_state.py` (the spec's
`Findings` record): exactly the six fields every producer populates. -/
structure ValidationResult where
  required_missing : List String
  warnings : List String
  errors : List String
  docs_ok : Bool
  note : String
  recommendation : String
deriving DecidableEq

/-- The claim-state snapshot threaded through the agents.  Python `None`
becomes `Option.none`; text fields default to `""` upstream, so they are
plain `String`s here. -/
structure ClaimState where
  transaction_id : String
  claim_id : String
  customer_name : String
  policy_number : String
  claim_type : String
  amount : ℚ
  extracted_text : String
  document_extracted_text : String
  claim_registered : Bool
  claim_validated : Bool
  fraud_checked : Bool
  claim_decision_made : Bool
  payment_processed : Bool
  claim_closed : Bool
  final_decision : Option String
  fraud_score : Option ℚ
  fraud_decision : Option String
  validation : Option ValidationResult
deriving DecidableEq

/-! ## `backend/agents/fraud_agent.py` -/

/-- `_clamp01` of `fraud_agent.py`: `max(0.0, min(1.0, x))`. -/
def clamp01 (x : ℚ) : ℚ := max 0 (min 1 x)

/-- Python `round(x, 2)`.  Embedded as round-half-up to two decimals;
Python's float `round` is round-half-to-even, which differs only on exact
half-cent ties and is immaterial to every property proved here (bounds,
threshold mapping at 0.3/0.6/0.7, and monotone floors). -/
def round2 (q : ℚ) : ℚ := ((⌊q * 100 + 1 / 2⌋ : ℤ) : ℚ) / 100

/-- `_finalize_decision` of `fraud_agent.py`: threshold mapping from score
to decision label (`0.6` is `Rat.divInt 3 5`, `0.3` is `Rat.divInt 3 10`). -/
def finalize_decision (score : ℚ) : String :=
  if score > Rat.divInt 3 5 then "SUSPECT"
  else if score ≥ Rat.divInt 3 10 then "MODERATE"
  else "SAFE"

/-- `_name_mismatch` of `fraud_agent.py`: registered customer name absent
from the OCR document text. -/
def name_mismatch (state : ClaimState) : Bool :=
  let docs := pyLower (pyStrip state.document_extracted_text)
  if state.customer_name = "" then false
  else !(pyIn (pyLower state.customer_name) docs)

/-- Oracle for the regex-based registration extractor `_vehicle_reg_set`
of `fraud_agent.py` (`re.findall` over the cleaned text; the Python
function returns a set — distinctness is recovered with `dedup`). -/
structure FraudOracles where
  vehicle_reg_set : String → List String

/-- `_vehicle_mismatch` of `fraud_agent.py`: at least two distinct
registration tokens in the document text. -/
def vehicle_mismatch (o : FraudOracles) (state : ClaimState) : Bool :=
  2 ≤ (o.vehicle_reg_set state.document_extracted_text).dedup.length

/-- `_narrative_contradiction` of `fraud_agent.py`. -/
def narrative_contradiction (state : ClaimState) : Bool :=
  let desc := pyLower (pyStrip state.extracted_text)
  let docs := pyLower (pyStrip state.document_extracted_text)
  pyIn "divider" desc &&
    (pyIn "rear" docs || pyIn "rear-ended" docs || pyIn "hit from rear" docs)

/-- The `critical_errors` set of `_risk_bump_from_validation`. -/
def criticalErrors : List String :=
  ["Policy expired or not covering OD",
   "Driving License invalid/expired",
   "RC/Policy/FIR vehicle mismatch",
   "Fake or unverifiable repair estimate",
   "FIR not found"]

/-- `_risk_bump_from_validation` of `fraud_agent.py`: deterministic score
floor from the validation findings (constants: 0.35 = `divInt 7 20`,
0.70 = `divInt 7 10`, 0.60 = `divInt 3 5`). -/
def risk_bump_from_validation (state : ClaimState) : ℚ :=
  match state.validation with
  | none => 0
  | some v =>
    let bump : ℚ := 0
    let bump := if !v.required_missing.isEmpty then max bump (Rat.divInt 7 20) else bump
    let bump := if v.errors.any (fun e => decide (e ∈ criticalErrors)) then
        max bump (Rat.divInt 7 10) else bump
    let bump := if decide ("Claim narrative inconsistent with FIR" ∈ v.errors) ||
        decide ("Claim narrative inconsistent with FIR" ∈ v.warnings) then
        max bump (Rat.divInt 3 5) else bump
    let bump := if pyUpper v.recommendation = "REJECT" then max bump (Rat.divInt 7 10) else bump
    let bump := if !v.docs_ok && (!v.errors.isEmpty || !v.required_missing.isEmpty) then
        max bump (Rat.divInt 7 20) else bump
    clamp01 bump

/-- `_risk_bump_from_heuristics` of `fraud_agent.py` (constants:
0.45 = `divInt 9 20`, 0.60 = `divInt 3 5`, 0.55 = `divInt 11 20`). -/
def risk_bump_from_heuristics (o : FraudOracles) (state : ClaimState) : ℚ :=
  let score : ℚ := 0
  let score := if name_mismatch state then max score (Rat.divInt 9 20) else score
  let score := if vehicle_mismatch o state then max score (Rat.divInt 3 5) else score
  let score := if narrative_contradiction state then max score (Rat.divInt 11 20) else score
  clamp01 score

/-- `fraud_agent` of `fraud_agent.py`.  The LLM call plus
`safe_json_parse` plus the `float(...)`/`str(...)` sanitisation yield some
rational score and some decision string; the agent is parametrised by that
post-parse pair (`llmScore`, `llmDecision`), which ranges over every
possible LLM response.  The DB side effects do not touch the state. -/
def fraud_agent (o : FraudOracles) (state : ClaimState)
    (llmScore : ℚ) (llmDecision : String) : ClaimState :=
  let claim_type := pyLower state.claim_type
  let state := { state with
    customer_name := pyStrip state.customer_name,
    extracted_text := pyStrip state.extracted_text,
    document_extracted_text := pyStrip state.document_extracted_text }
  if claim_type ≠ "motor" then state
  else
    let score_llm := clamp01 llmScore
    let decision_llm := pyUpper (pyStrip llmDecision)
    let _decision_llm := if decision_llm = "SAFE" || decision_llm = "MODERATE" ||
        decision_llm = "SUSPECT" then decision_llm else "SAFE"
    let floor_val := risk_bump_from_validation state
    let floor_hx := risk_bump_from_heuristics o state
    let final_score := round2 (clamp01 (max score_llm (max floor_val floor_hx)))
    let final_decision := finalize_decision final_score
    { state with
      fraud_checked := true,
      fraud_score := some final_score,
      fraud_decision := some final_decision }

/-! ## `backend/agents/llm_validation_agent.py` — deterministic pre-validation -/

/-- Oracles for the regex/`strptime` extraction helpers of
`llm_validation_agent.py`.  Dates are `Int` ordinals.  `extract_block` is
the inner `_extract_block` closure (marker scan plus heading-alias
fallback) applied to the normalised OCR blob; `estimate_major_replacement`
is the `re.search((bumper|headlamp|door|fender).*(replace|assembly|assy))`
test of step 9. -/
structure Extractors where
  parse_date_with_formats : String → Option Int
  extract_valid_to : String → Option Int
  extract_policy_period : String → Option Int × Option Int × String
  detect_vehicle_reg : String → List String
  extract_name : String → Option String
  parse_estimate_total : String → Option ℚ
  extract_block : String → DocLabel → String
  estimate_major_replacement : String → Bool

/-- `_infer_damage_severity` of `llm_validation_agent.py`. -/
def infer_damage_severity (description fir_text : String) : String :=
  let t := pyLower (description ++ "\n" ++ fir_text)
  let minor_kw := ["minor", "scratch", "scratches", "grazed", "light", "superficial"]
  let moderate_kw := ["rear-ended", "rear ended", "hit from rear", "bumper", "tail lamp", "fender", "dent"]
  let major_kw := ["head-on", "hit divider", "rollover", "totaled", "airbag deployed", "radiator", "chassis"]
  let score : Int :=
    (if minor_kw.any (fun k => pyIn k t) then -1 else 0) +
    (if moderate_kw.any (fun k => pyIn k t) then 1 else 0) +
    (if major_kw.any (fun k => pyIn k t) then 2 else 0)
  if score ≤ 0 then "MINOR" else if score = 1 then "MODERATE" else "MAJOR"

/-- The `critical_error_keys` set of `_recommendation_from`. -/
def criticalErrorKeys : List String :=
  ["FIR not found",
   "Driving License invalid/expired",
   "Policy expired or not covering OD",
   "RC/Policy/FIR vehicle mismatch",
   "Claim narrative inconsistent with FIR",
   "Fake or unverifiable repair estimate"]

/-- `_recommendation_from` of `llm_validation_agent.py`. -/
def recommendation_from (required_missing : List DocLabel) (errors : List String) : String :=
  if !required_missing.isEmpty then "NEED_MORE_DOCUMENTS"
  else if errors.any (fun e => decide (e ∈ criticalErrorKeys)) then "REJECT"
  else "APPROVE"

/-- The `Findings`-shaped dict returned by `_prevalidate`. -/
structure PreFindings where
  required_missing : List DocLabel
  warnings : List String
  errors : List String
  docs_ok : Bool
  note : String
  recommendation : String
deriving DecidableEq

/-! `_prevalidate` of `llm_validation_agent.py` is embedded as one named
definition per check, sharing the same normalised inputs; `prevalidate`
below assembles them exactly as the source's single function does.
Arguments: `a` = `state.extracted_text`, `b` =
`state.document_extracted_text`, `c` = `state.customer_name`. -/

/-- `desc = _normalize(state.extracted_text)`. -/
def preDesc (a : String) : String := pyStrip a

/-- `docs_raw = _normalize(state.document_extracted_text)`. -/
def preDocsRaw (b : String) : String := pyStrip b

/-- Step 1: labels whose marker is absent from the lower-cased blob. -/
def preRequiredMissing (b : String) : List DocLabel :=
  (MANDATORY_DOC_MARKERS.filter
    (fun ml => !(pyIn (pyLower ml.1) (pyLower (preDocsRaw b))))).map (fun ml => ml.2)

/-- Step 2: the `_extract_block` oracle applied to the normalised blob. -/
def preBlock (ex : Extractors) (b : String) (l : DocLabel) : String :=
  ex.extract_block (preDocsRaw b) l

/-- Step 3: incident date from the description, else from the FIR block. -/
def preIncidentDate (ex : Extractors) (a b : String) : Option Int :=
  (ex.parse_date_with_formats (preDesc a)).orElse
    (fun _ => ex.parse_date_with_formats (preBlock ex b .FIR))

/-- Step 4: `dl_valid_to = _extract_valid_to(dl_text) or
_parse_date_with_formats(dl_text)`. -/
def preDlValidTo (ex : Extractors) (b : String) : Option Int :=
  (ex.extract_valid_to (preBlock ex b .DRIVING_LICENSE)).orElse
    (fun _ => ex.parse_date_with_formats (preBlock ex b .DRIVING_LICENSE))

/-- Step 4, error part: DL expired before the incident. -/
def preDlErrors (ex : Extractors) (a b : String) : List String :=
  if preBlock ex b .DRIVING_LICENSE ≠ "" then
    match preIncidentDate ex a b, preDlValidTo ex b with
    | some inc, some v => if v < inc then ["Driving License invalid/expired"] else []
    | _, _ => []
  else []

/-- Step 4, warning part: empty DL block while its marker is present. -/
def preDlWarnings (ex : Extractors) (b : String) : List String :=
  if preBlock ex b .DRIVING_LICENSE ≠ "" then []
  else if DocLabel.DRIVING_LICENSE ∉ preRequiredMissing b then
    ["Driving License details unclear"]
  else []

/-- Step 5, error part: policy ended before the incident, and/or TP-only
coverage (the source can append the same string twice). -/
def prePolicyErrors (ex : Extractors) (a b : String) : List String :=
  if preBlock ex b .POLICY_COPY ≠ "" then
    (match preIncidentDate ex a b,
        (ex.extract_policy_period (preBlock ex b .POLICY_COPY)).2.1 with
     | some inc, some p_end =>
       if p_end < inc then ["Policy expired or not covering OD"] else []
     | _, _ => []) ++
    (if (ex.extract_policy_period (preBlock ex b .POLICY_COPY)).2.2 = "TP_ONLY" then
      ["Policy expired or not covering OD"] else [])
  else []

/-- Step 5, warning part: unparsed period, unknown coverage, or empty
policy block while its marker is present. -/
def prePolicyWarnings (ex : Extractors) (a b : String) : List String :=
  if preBlock ex b .POLICY_COPY ≠ "" then
    (if (preIncidentDate ex a b).isSome &&
        ((ex.extract_policy_period (preBlock ex b .POLICY_COPY)).1.isNone ||
         (ex.extract_policy_period (preBlock ex b .POLICY_COPY)).2.1.isNone) then
      ["Policy validity period not clearly parsed"] else []) ++
    (if (ex.extract_policy_period (preBlock ex b .POLICY_COPY)).2.2 = "TP_ONLY" then []
     else if (ex.extract_policy_period (preBlock ex b .POLICY_COPY)).2.2 = "UNKNOWN" then
      ["Policy coverage type not clearly identified (OD/Comprehensive)"]
     else [])
  else if DocLabel.POLICY_COPY ∉ preRequiredMissing b then ["Policy details unclear"]
  else []

/-- Step 6: the distinct registration tokens across FIR, RC and Policy
blocks (`set`-union of the per-block extractor results). -/
def preRegs (ex : Extractors) (b : String) : List String :=
  (ex.detect_vehicle_reg (preBlock ex b .FIR) ++
   ex.detect_vehicle_reg (preBlock ex b .RC_BOOK) ++
   ex.detect_vehicle_reg (preBlock ex b .POLICY_COPY)).dedup

/-- Step 6, error part: two or more distinct registrations. -/
def preVehicleErrors (ex : Extractors) (b : String) : List String :=
  if 2 ≤ (preRegs ex b).length then ["RC/Policy/FIR vehicle mismatch"] else []

/-- Step 7: registered name absent from the extracted document name. -/
def preNameWarnings (ex : Extractors) (b c : String) : List String :=
  match ex.extract_name (preBlock ex b .DRIVING_LICENSE ++ "\n" ++
      preBlock ex b .POLICY_COPY ++ "\n" ++ preBlock ex b .FIR) with
  | some n =>
    if pyStrip c ≠ "" && n ≠ "" && !(pyIn (pyLower (pyStrip c)) (pyLower n)) then
      ["Customer name mismatch between registration and documents"]
    else []
  | none => []

/-- Step 8: narrative/FIR contradiction pairs. -/
def contradictionPairs : List (List String × List String) :=
  [(["divider"], ["rear", "rear-ended", "hit from rear"]),
   (["rear", "rear-ended", "hit from rear"], ["divider"]),
   (["minor", "scratch", "scratches", "grazed"],
    ["bumper", "headlamp", "radiator", "chassis", "bonnet", "fender"])]

/-- Step 8 (continued): the contradiction test over `contradictionPairs`,
with `d` the lower-cased description and `f` the lower-cased FIR body. -/
def preNarrativeErrors (ex : Extractors) (a b : String) : List String :=
  if preDesc a ≠ "" && preBlock ex b .FIR ≠ "" then
    if contradictionPairs.any (fun p =>
        p.1.any (fun x => pyIn x (pyLower (preDesc a))) &&
        p.2.any (fun y => pyIn y (pyLower (preBlock ex b .FIR)))) then
      ["Claim narrative inconsistent with FIR"]
    else []
  else []

/-- Step 9: estimate plausibility vs severity & photos; absent estimate
block yields the fixed warning. -/
def preEstimateWarnings (ex : Extractors) (a b : String) : List String :=
  if preBlock ex b .REPAIR_ESTIMATE ≠ "" then
    (if infer_damage_severity (preDesc a) (preBlock ex b .FIR) = "MINOR" &&
        (ex.parse_estimate_total (preBlock ex b .REPAIR_ESTIMATE)).getD 0 > 50000 then
      ["Unusually high repair estimate for minor damage"] else []) ++
    (if infer_damage_severity (preDesc a) (preBlock ex b .FIR) = "MODERATE" &&
        (ex.parse_estimate_total (preBlock ex b .REPAIR_ESTIMATE)).getD 0 > 150000 then
      ["Repair estimate appears inflated for moderate impact"] else []) ++
    (if preBlock ex b .ACCIDENT_PHOTOS ≠ "" then
      if (["minor", "hairline", "scratch"].any
            (fun k => pyIn k (pyLower (preBlock ex b .ACCIDENT_PHOTOS)))) &&
          ex.estimate_major_replacement (preBlock ex b .REPAIR_ESTIMATE) then
        ["Photos suggest minor damage but estimate lists major replacements"]
      else []
     else [])
  else ["Repair estimate not provided or unclear"]

/-- Step 10: FIR absence is a critical error on top of the missing entry. -/
def preFirErrors (b : String) : List String :=
  if DocLabel.FIR ∈ preRequiredMissing b then ["FIR not found"] else []

/-- Step 11: unverifiable-estimate language. -/
def preFakeErrors (ex : Extractors) (b : String) : List String :=
  if preBlock ex b .REPAIR_ESTIMATE ≠ "" &&
      (["handwritten", "non-network", "non network", "no gst",
        "no gstin", "no part", "no part number"].any
        (fun k => pyIn k (pyLower (preBlock ex b .REPAIR_ESTIMATE)))) then
    ["Fake or unverifiable repair estimate"]
  else []

/-- The full error list, in the source's append order (steps 4, 5, 6, 8,
10, 11). -/
def preErrors (ex : Extractors) (a b : String) : List String :=
  preDlErrors ex a b ++ prePolicyErrors ex a b ++ preVehicleErrors ex b ++
    preNarrativeErrors ex a b ++ preFirErrors b ++ preFakeErrors ex b

/-- The full warning list, in the source's append order (steps 4, 5, 7, 9). -/
def preWarnings (ex : Extractors) (a b c : String) : List String :=
  preDlWarnings ex b ++ prePolicyWarnings ex a b ++ preNameWarnings ex b c ++
    preEstimateWarnings ex a b

/-- `_prevalidate` of `llm_validation_agent.py`: the deterministic rule
evaluator, with the regex extraction helpers supplied by `ex`, assembled
from the per-step definitions above exactly as the source's single
function runs them. -/
def prevalidate (ex : Extractors)
    (extracted_text document_extracted_text customer_name : String) : PreFindings :=
  let required_missing := preRequiredMissing document_extracted_text
  let errors := preErrors ex extracted_text document_extracted_text
  let warnings := preWarnings ex extracted_text document_extracted_text customer_name
  let recommendation := recommendation_from required_missing errors
  let docs_ok := errors.isEmpty && required_missing.isEmpty
  let reasons :=
    (if !required_missing.isEmpty then
      ["Missing: " ++ String.intercalate ", " (required_missing.map DocLabel.str)] else []) ++
    (if !errors.isEmpty then ["Errors: " ++ String.intercalate ", " errors] else []) ++
    (if !warnings.isEmpty then ["Warnings: " ++ String.intercalate ", " warnings] else [])
  let note :=
    if reasons.isEmpty then "Deterministic pre-validation found no critical issues."
    else String.intercalate "; " reasons
  { required_missing := required_missing, warnings := warnings, errors := errors,
    docs_ok := docs_ok, note := note, recommendation := recommendation }

/-! ## `backend/agents/llm_validation_agent.py` — LLM passes and merge engine -/

/-- One entry of the text-only pass's `docs` map, after
`_safe_llm_text_only_loads` (which guarantees every label has an entry). -/
structure DocPresence where
  present : Bool
  confidence : ℚ
  citations : List String

/-- The parsed text-only LLM response, restricted to the fields the merge
engine reads (`docs`, `warnings`, `errors`; source lines 738, 751-752). -/
structure TextOnlyFindings where
  docs : DocLabel → DocPresence
  warnings : List String
  errors : List String

/-- The full-validation LLM response after `_sanitize_llm_dict`. -/
structure LlmFindings where
  required_missing : List String
  warnings : List String
  errors : List String
  docs_ok : Bool
  note : String
  recommendation : String

/-- `RECOMMENDATION_ORDER.get(r, 1)` of `_merge_recommendation`. -/
def RECOMMENDATION_ORDER (r : String) : Nat :=
  if r = "REJECT" then 3
  else if r = "NEED_MORE_DOCUMENTS" then 2
  else if r = "APPROVE" then 1
  else 1

/-- `_merge_recommendation` of `llm_validation_agent.py`: keep whichever
recommendation has the higher severity rank (ties go to the local one). -/
def merge_recommendation (local_rec llm_rec : String) : String :=
  let a := RECOMMENDATION_ORDER (pyUpper (if local_rec = "" then "APPROVE" else local_rec))
  let b := RECOMMENDATION_ORDER (pyUpper (if llm_rec = "" then "APPROVE" else llm_rec))
  if b ≤ a then local_rec else llm_rec

/-- `_merge_text_only_presence` of `llm_validation_agent.py`: fraud-aware
per-label presence (`0.6` = `divInt 3 5`, `0.75` = `divInt 3 4`,
`0.85` = `divInt 17 20`). -/
def merge_text_only_presence (pre_missing : List DocLabel)
    (textOnly : TextOnlyFindings) (fraud_score : ℚ) : DocLabel → Bool :=
  let tau := if fraud_score < Rat.divInt 3 5 then Rat.divInt 3 4 else Rat.divInt 17 20
  fun label =>
    let pre_present := decide (label ∉ pre_missing)
    let d := textOnly.docs label
    let llm_ok := d.present && decide (tau ≤ d.confidence) && decide (0 < d.citations.length)
    pre_present || llm_ok

/-- Final per-label presence of the merge (source lines 708-745):
`pre_present` over the adjusted pre-missing list, OR the full-validation
presence, OR the raw text-only presence. -/
def merged_final_present (pre : PreFindings) (textOnly : TextOnlyFindings)
    (llm : LlmFindings) (fraud_score : ℚ) : DocLabel → Bool :=
  let present_map := merge_text_only_presence pre.required_missing textOnly fraud_score
  let adjusted_pre_missing := mandatoryLabels.filter (fun x => !present_map x)
  fun label =>
    decide (label ∉ adjusted_pre_missing) ||
    decide (DocLabel.str label ∉ llm.required_missing) ||
    (textOnly.docs label).present

/-- Final `required_missing` of the merge (source line 748). -/
def merged_required_missing (pre : PreFindings) (textOnly : TextOnlyFindings)
    (llm : LlmFindings) (fraud_score : ℚ) : List String :=
  (mandatoryLabels.filter (fun l => !merged_final_present pre textOnly llm fraud_score l)).map
    DocLabel.str

/-- Merged deduplicated-and-sorted error set, after the presence-aware
cleanup of stale `"FIR not found"` entries (source lines 752-756). -/
def merged_errors (pre : PreFindings) (textOnly : TextOnlyFindings)
    (llm : LlmFindings) (fraud_score : ℚ) : List String :=
  let e := pySortedSet (pre.errors ++ llm.errors ++ textOnly.errors)
  if merged_final_present pre textOnly llm fraud_score .FIR then
    e.filter (fun x => x ≠ "FIR not found")
  else e

/-- Merged deduplicated-and-sorted warning set, after the presence-aware
cleanup of the stale repair-estimate warning (source lines 751, 757-758). -/
def merged_warnings (pre : PreFindings) (textOnly : TextOnlyFindings)
    (llm : LlmFindings) (fraud_score : ℚ) : List String :=
  let w := pySortedSet (pre.warnings ++ llm.warnings ++ textOnly.warnings)
  if merged_final_present pre textOnly llm fraud_score .REPAIR_ESTIMATE then
    w.filter (fun x => pyLower (pyStrip x) ≠ "repair estimate not provided or unclear")
  else w

/-- Is one of the two critical-blocker errors present? (the repeated
`any(e in errors for e in [...])` test of source lines 761 and 770). -/
def blocker_present (pre : PreFindings) (textOnly : TextOnlyFindings)
    (llm : LlmFindings) (fraud_score : ℚ) : Bool :=
  decide ("Policy expired or not covering OD" ∈ merged_errors pre textOnly llm fraud_score) ||
  decide ("Driving License invalid/expired" ∈ merged_errors pre textOnly llm fraud_score)

/-- Final `docs_ok` of the merge: the line-761 value, then forced to
`false` by the required-missing and critical-blocker overrides
(source lines 761, 767-772). -/
def merged_docs_ok (pre : PreFindings) (textOnly : TextOnlyFindings)
    (llm : LlmFindings) (fraud_score : ℚ) : Bool :=
  let docs_ok0 := (merged_required_missing pre textOnly llm fraud_score).isEmpty &&
    !blocker_present pre textOnly llm fraud_score
  let docs_ok1 :=
    if !(merged_required_missing pre textOnly llm fraud_score).isEmpty then false else docs_ok0
  if blocker_present pre textOnly llm fraud_score then false else docs_ok1

/-- Final `recommendation` of the merge: severity-max of the two source
recommendations, then the three overrides of source lines 764-775 in
order (missing → NEED_MORE_DOCUMENTS, blocker → REJECT, clean → APPROVE). -/
def merged_recommendation (pre : PreFindings) (textOnly : TextOnlyFindings)
    (llm : LlmFindings) (fraud_score : ℚ) : String :=
  let r0 := merge_recommendation pre.recommendation llm.recommendation
  let r1 :=
    if !(merged_required_missing pre textOnly llm fraud_score).isEmpty then
      "NEED_MORE_DOCUMENTS" else r0
  let r2 := if blocker_present pre textOnly llm fraud_score then "REJECT" else r1
  if merged_docs_ok pre textOnly llm fraud_score &&
      (merged_required_missing pre textOnly llm fraud_score).isEmpty then "APPROVE"
  else r2

/-- The merge engine of `llm_validation_agent` (source lines 708-797):
assembles the final `ValidationResult` from the deterministic findings and
the two parsed LLM passes, given the pre-existing fraud score (used only
for the text-only confidence threshold). -/
def mergeFindings (pre : PreFindings) (textOnly : TextOnlyFindings)
    (llm : LlmFindings) (fraud_score : ℚ) : ValidationResult :=
  let required_missing := merged_required_missing pre textOnly llm fraud_score
  let warnings := merged_warnings pre textOnly llm fraud_score
  let errors := merged_errors pre textOnly llm fraud_score
  let notes :=
    (if !required_missing.isEmpty then
      ["Missing: " ++ String.intercalate ", " required_missing] else []) ++
    (if !errors.isEmpty then ["Errors: " ++ String.intercalate ", " errors] else []) ++
    (if !warnings.isEmpty then ["Warnings: " ++ String.intercalate ", " warnings] else [])
  let notes := if notes.isEmpty then ["All mandatory checks passed; no critical findings."]
    else notes
  { required_missing := required_missing,
    warnings := warnings,
    errors := errors,
    docs_ok := merged_docs_ok pre textOnly llm fraud_score,
    note := String.intercalate " | " notes,
    recommendation := merged_recommendation pre textOnly llm fraud_score }

/-- `llm_validation_agent` of `llm_validation_agent.py`, parametrised by
the extraction oracles and the two parsed LLM responses (each covering
every possible raw response, including the fixed fallback payloads used on
call failure).  Normalisation, the non-motor short-circuit, the merge, and
the `claim_validated` update follow the source. -/
def llm_validation_agent (ex : Extractors) (textOnly : TextOnlyFindings)
    (llm : LlmFindings) (state : ClaimState) : ClaimState :=
  let state := { state with
    claim_type := pyLower state.claim_type,
    customer_name := pyStrip state.customer_name,
    policy_number := pyStrip state.policy_number,
    extracted_text := pyStrip state.extracted_text,
    document_extracted_text := pyStrip state.document_extracted_text }
  if state.claim_type = "" ∨ state.claim_type ≠ "motor" then
    { state with
      validation := some
        { required_missing := [], warnings := [],
          errors := ["Non-motor claim type or missing claim_type"],
          docs_ok := false,
          note := "Validation skipped: claim_type is not 'motor'.",
          recommendation := "NEED_MORE_DOCUMENTS" },
      claim_validated := false }
  else
    let pre := prevalidate ex state.extracted_text state.document_extracted_text
      state.customer_name
    let fraud_score := (state.fraud_score).getD 0
    let v := mergeFindings pre textOnly llm fraud_score
    { state with validation := some v, claim_validated := v.docs_ok }

/-! ## `backend/agents/manager_agent.py` -/

/-- The decision hierarchy of `ManagerAgent.finalize_claim` (source lines
76-93), as a pure function of the five inputs it reads
(`0.7` = `Rat.divInt 7 10`). -/
def managerDecision (docs_ok : Bool) (recommendation : String) (fraud_score : ℚ)
    (fraud_decision : String) (warnings : List String) : String :=
  if !docs_ok || recommendation = "NEED_MORE_DOCUMENTS" then "PENDING_DOCUMENTS"
  else if recommendation = "REJECT" then "REJECTED"
  else if decide (Rat.divInt 7 10 ≤ fraud_score) || fraud_decision = "SUSPECT" ||
      recommendation = "SUSPECT" then "ESCALATED_TO_SIU"
  else if !warnings.isEmpty then "ESCALATED_TO_SIU"
  else "APPROVED"

/-- `ManagerAgent.finalize_claim` of `manager_agent.py`: the resume guard,
then the decision hierarchy.  The `update_claim_fields` DB call is a side
effect wrapped in `try/except` and never touches the state. -/
def finalize_claim (state : ClaimState) : ClaimState :=
  let resume_guard :=
    state.claim_decision_made &&
    (decide (state.final_decision = some "APPROVED") ||
     decide (state.final_decision = some "REJECTED") ||
     decide (state.final_decision = some "ESCALATED_TO_SIU")) &&
    (let recommendation := pyUpper ((state.validation.map (fun v => v.recommendation)).getD "")
     let fraud_score := (state.fraud_score).getD 0
     decide (fraud_score < Rat.divInt 7 10) &&
       !(recommendation = "SUSPECT" || recommendation = "REJECT" ||
         recommendation = "NEED_MORE_DOCUMENTS"))
  if resume_guard then state
  else
    let docs_ok := (state.validation.map (fun v => v.docs_ok)).getD false
    let warnings := (state.validation.map (fun v => v.warnings)).getD []
    let recommendation := pyUpper ((state.validation.map (fun v => v.recommendation)).getD "")
    let fraud_score := (state.fraud_score).getD 0
    let fraud_decision := pyUpper ((state.fraud_decision).getD "")
    { state with
      final_decision :=
        some (managerDecision docs_ok recommendation fraud_score fraud_decision warnings),
      claim_decision_made := true }

/-! ## `backend/utils/safe_json.py` -/

/-- JSON values, for the result of `safe_json_parse`. -/
inductive Json where
  | null
  | bool (b : Bool)
  | num (q : ℚ)
  | str (s : String)
  | arr (xs : List Json)
  | obj (fields : List (String × Json))

/-- Oracles for the parsing helpers of `safe_json.py`: `_try_json_loads`
(where `none` covers both a raised exception and a parsed top-level `null`,
which Python's `obj is not None` guard cannot distinguish),
`_normalize_text`, `_extract_fenced_blocks` (language tag × content), and
the two balanced extractors. -/
structure JsonOracles where
  try_json_loads : String → Option Json
  normalize_text : String → String
  extract_fenced_blocks : String → List (Option String × String)
  extract_balanced_object : String → Option String
  extract_balanced_array : String → Option String

/-- `_is_expected_type` of `safe_json.py`. -/
def is_expected_type (j : Json) (expect : String) : Bool :=
  if expect = "any" then true
  else if expect = "object" then (match j with | .obj _ => true | _ => false)
  else if expect = "array" then (match j with | .arr _ => true | _ => false)
  else false

/-- Is a parsed value Python-`None`?  `json.loads` returning top-level
`null` produces Python `None`, indistinguishable from the `None` of a
caught exception; `obj is not None` rejects it. -/
def jsonIsNotNone (j : Json) : Bool :=
  match j with
  | .null => false
  | _ => true

/-- One `return obj` site of `safe_json_parse`: parse, then the guard
`obj is not None and _is_expected_type(obj, expect)`.  Returns `some`
exactly when the source returns. -/
def checkedParse (o : JsonOracles) (s : String) (expect : String) : Option Json :=
  match o.try_json_loads s with
  | none => none
  | some j => if jsonIsNotNone j && is_expected_type j expect then some j else none

/-- A balanced-extraction attempt (`if maybe_obj: ...` — the Python
truthiness test also rejects an empty extracted string). -/
def balancedAttempt (o : JsonOracles) (extract : String → Option String)
    (s expect : String) : Option Json :=
  match extract s with
  | some t => if t ≠ "" then checkedParse o t expect else none
  | none => none

/-- First-pass attempt on one fenced block: only blocks labelled `json`. -/
def jsonLabeledAttempt (o : JsonOracles) (expect : String)
    (b : Option String × String) : Option Json :=
  if b.1 = some "json" then checkedParse o (o.normalize_text b.2) expect else none

/-- Second-pass attempt on one fenced block: direct parse of the
normalised content, then balanced object, then balanced array (each
guarded by `expect`, in source order). -/
def blockAttempt (o : JsonOracles) (expect : String) (content : String) : Option Json :=
  let content_norm := o.normalize_text content
  (checkedParse o content_norm expect).orElse fun _ =>
  (if expect = "object" || expect = "any" then
    balancedAttempt o o.extract_balanced_object content_norm expect else none).orElse fun _ =>
  (if expect = "array" || expect = "any" then
    balancedAttempt o o.extract_balanced_array content_norm expect else none)

/-- The fallback ladder of `safe_json_parse` (steps 1-3 of the source:
direct parse, json-labelled fenced blocks, all fenced blocks, balanced
object, balanced array), applied to the normalised and truncated payload
`s`; each arm is a Python early `return` site. -/
def safeJsonAttempt (o : JsonOracles) (s expect : String) : Option Json :=
  (checkedParse o s expect).orElse fun _ =>
  (((o.extract_fenced_blocks s).findSome? (jsonLabeledAttempt o expect)).orElse fun _ =>
  (((o.extract_fenced_blocks s).findSome? (fun b => blockAttempt o expect b.2)).orElse fun _ =>
  ((if expect = "object" || expect = "any" then
      balancedAttempt o o.extract_balanced_object s expect else none).orElse fun _ =>
    (if expect = "array" || expect = "any" then
      balancedAttempt o o.extract_balanced_array s expect else none))))

/-- `s = s[:max_scan_chars]` guarded by the length test of the source. -/
def pyTruncate (s : String) (maxScanChars : Nat) : String :=
  if maxScanChars < s.data.length then String.mk (s.data.take maxScanChars) else s

/-- `safe_json_parse` of `safe_json.py`: empty-input check, normalisation,
truncation, then the fallback ladder.  The Python function returns either
a parsed JSON value or the caller's fallback (of arbitrary type); the two
cases are kept apart with a sum type.  Every helper is total, so the
embedding is manifestly exception-free.  `maxScanChars` is the
`max_scan_chars` keyword parameter (200000 at the call sites). -/
def safe_json_parse {α : Type} (o : JsonOracles) (result : String) (fallback : α)
    (expect : String) (maxScanChars : Nat) : Json ⊕ α :=
  if pyStrip result = "" then .inr fallback
  else
    match safeJsonAttempt o (pyTruncate (o.normalize_text (pyStrip result)) maxScanChars)
        expect with
    | some j => .inl j
    | none => .inr fallback

/-! ## Concrete fixtures

Concrete oracle instantiations and inputs used by the witness and
counterexample theorems below. -/

/-- A baseline extractor oracle: every regex helper finds nothing, every
section body extracts to the non-empty text `"x"`. -/
def exBase : Extractors :=
  { parse_date_with_formats := fun _ => none,
    extract_valid_to := fun _ => none,
    extract_policy_period := fun _ => (none, none, "UNKNOWN"),
    detect_vehicle_reg := fun _ => [],
    extract_name := fun _ => none,
    parse_estimate_total := fun _ => none,
    extract_block := fun _ _ => "x",
    estimate_major_replacement := fun _ => false }

/-- An OCR blob containing all six section markers. -/
def docsAll : String :=
  "=== FIR ===\n=== DRIVING_LICENSE ===\n=== RC_BOOK ===\n=== POLICY_COPY ===\n=== REPAIR_ESTIMATE ===\n=== ACCIDENT_PHOTOS ==="

/-- An OCR blob missing the FIR marker. -/
def docsNoFIR : String :=
  "=== DRIVING_LICENSE ===\n=== RC_BOOK ===\n=== POLICY_COPY ===\n=== REPAIR_ESTIMATE ===\n=== ACCIDENT_PHOTOS ==="

/-- Extractor oracle that finds two distinct registration numbers in the
FIR block. -/
def exMismatch : Extractors := { exBase with
  extract_block := fun _ l => if l = .FIR then "F" else "x",
  detect_vehicle_reg := fun s => if s = "F" then ["KA01AB1234", "MH12CD5678"] else [] }

/-- Extractor oracle whose driving-license block is present but yields no
parseable expiry date, while an incident date does parse (from the FIR
block `"x"`) and the policy parses cleanly. -/
def exDl : Extractors := { exBase with
  extract_block := fun _ l => if l = .DRIVING_LICENSE then "DL No: unreadable" else "x",
  extract_policy_period := fun _ => (some 1, some 200, "COMPREHENSIVE"),
  parse_date_with_formats := fun s => if s = "x" then some 100 else none }

/-- A text-only pass that asserts nothing. -/
def tTriv : TextOnlyFindings :=
  { docs := fun _ => { present := false, confidence := 0, citations := [] },
    warnings := [], errors := [] }

/-- A text-only pass asserting FIR presence with zero confidence and no
citations. -/
def tC1fix : TextOnlyFindings :=
  { docs := fun l => if l = .FIR then { present := true, confidence := 0, citations := [] }
      else { present := false, confidence := 0, citations := [] },
    warnings := [], errors := [] }

/-- A clean APPROVE full-validation response. -/
def llmApprove : LlmFindings :=
  { required_missing := [], warnings := [], errors := [], docs_ok := true,
    note := "", recommendation := "APPROVE" }

/-- A full-validation response reporting FIR missing. -/
def llmC1fix : LlmFindings :=
  { required_missing := ["FIR"], warnings := [], errors := [], docs_ok := false,
    note := "", recommendation := "NEED_MORE_DOCUMENTS" }

/-- A fraud-heuristics oracle finding no registration numbers. -/
def oTriv : FraudOracles := { vehicle_reg_set := fun _ => [] }

/-- A baseline claim state (motor claim, empty texts, nothing decided). -/
def stateBase : ClaimState :=
  { transaction_id := "tx", claim_id := "c1", customer_name := "",
    policy_number := "", claim_type := "motor", amount := 0,
    extracted_text := "", document_extracted_text := "",
    claim_registered := true, claim_validated := false, fraud_checked := false,
    claim_decision_made := false, payment_processed := false, claim_closed := false,
    final_decision := none, fraud_score := none, fraud_decision := none,
    validation := none }

/-- The motor claim state carrying the merged findings of the
vehicle-mismatch scenario. -/
def stateMismatch : ClaimState :=
  { stateBase with
    validation := some (mergeFindings (prevalidate exMismatch "" docsAll "") tTriv llmApprove 0) }

/-- A non-motor claim state with untrimmed text fields. -/
def stateHealth : ClaimState :=
  { stateBase with claim_type := "health", customer_name := " Bob " }

/-- A finalized state satisfying the resume guard of `finalize_claim`
(decision made, APPROVED, fraud score 0.5, recommendation APPROVE). -/
def stateResume : ClaimState :=
  { stateBase with
    claim_decision_made := true,
    final_decision := some "APPROVED",
    fraud_score := some (Rat.divInt 1 2),
    validation := some
      { required_missing := [], warnings := [], errors := [], docs_ok := true,
        note := "", recommendation := "APPROVE" } }

/-- The merged presence formula exactly as the specification words it
(spec §4.5): deterministic presence OR full-validation presence OR
(text-only presence AND confidence ≥ τ AND citations non-empty), with
τ = 0.75 below fraud score 0.6 and 0.85 otherwise.  Written from the
spec's sentence, to be compared against `merged_final_present`, which is
written from the source. -/
def specMergedPresent (pre : PreFindings) (textOnly : TextOnlyFindings)
    (llm : LlmFindings) (fraud_score : ℚ) (label : DocLabel) : Bool :=
  let tau := if fraud_score < Rat.divInt 3 5 then Rat.divInt 3 4 else Rat.divInt 17 20
  let d := textOnly.docs label
  decide (label ∉ pre.required_missing) ||
  decide (DocLabel.str label ∉ llm.required_missing) ||
  (d.present && decide (tau ≤ d.confidence) && decide (0 < d.citations.length))

/-- `required_missing` as the specification's presence formula predicts
it: the labels whose `specMergedPresent` flag is false. -/
def specRequiredMissing (pre : PreFindings) (textOnly : TextOnlyFindings)
    (llm : LlmFindings) (fraud_score : ℚ) : List String :=
  (mandatoryLabels.filter (fun l => !specMergedPresent pre textOnly llm fraud_score l)).map
    DocLabel.str

/-! ## Helper lemmas -/

theorem mem_insertSorted {x a : String} {l : List String} :
    x ∈ insertSorted a l ↔ x = a ∨ x ∈ l := by
  induction l with
  | nil => simp [insertSorted]
  | cons b bs ih =>
    simp only [insertSorted]
    split
    · simp [or_comm, or_assoc]
    · simp only [List.mem_cons, ih]
      tauto

theorem mem_insertionSort {x : String} {l : List String} :
    x ∈ insertionSort l ↔ x ∈ l := by
  induction l with
  | nil => simp [insertionSort]
  | cons a as ih => simp [insertionSort, mem_insertSorted, ih]

theorem mem_pySortedSet {x : String} {xs : List String} :
    x ∈ pySortedSet xs ↔ x ∈ xs := by
  simp [pySortedSet, mem_insertionSort, List.mem_dedup]

theorem clamp01_nonneg (x : ℚ) : 0 ≤ clamp01 x := le_max_left 0 _

theorem clamp01_le_one (x : ℚ) : clamp01 x ≤ 1 :=
  max_le (by norm_num) (min_le_left 1 x)

theorem le_clamp01_of_le {c x : ℚ} (hc : c ≤ 1) (h : c ≤ x) : c ≤ clamp01 x :=
  le_trans (le_min hc h) (le_max_right 0 (min 1 x))

theorem round2_nonneg {q : ℚ} (h : 0 ≤ q) : 0 ≤ round2 q := by
  unfold round2
  have h1 : (0 : ℤ) ≤ ⌊q * 100 + 1 / 2⌋ := by
    apply Int.le_floor.mpr
    push_cast
    nlinarith
  positivity

theorem round2_le_one {q : ℚ} (h : q ≤ 1) : round2 q ≤ 1 := by
  unfold round2
  have h1 : ⌊q * 100 + 1 / 2⌋ ≤ ⌊(201 : ℚ) / 2⌋ := Int.floor_le_floor (by nlinarith)
  have h2 : ⌊(201 : ℚ) / 2⌋ = 100 := by norm_num
  have h3 : ((⌊q * 100 + 1 / 2⌋ : ℤ) : ℚ) ≤ 100 := by
    rw [h2] at h1
    exact_mod_cast h1
  linarith

theorem round2_ge {c : ℤ} {q : ℚ} (h : (c : ℚ) / 100 ≤ q) : (c : ℚ) / 100 ≤ round2 q := by
  unfold round2
  have h1 : (c : ℤ) ≤ ⌊q * 100 + 1 / 2⌋ := by
    apply Int.le_floor.mpr
    have hc : (c : ℚ) ≤ q * 100 := by
      calc (c : ℚ) = (c : ℚ) / 100 * 100 := by ring
        _ ≤ q * 100 := by nlinarith
    linarith
  have h2 : ((c : ℤ) : ℚ) ≤ ((⌊q * 100 + 1 / 2⌋ : ℤ) : ℚ) := by exact_mod_cast h1
  gcongr

theorem if_max_step (c : Bool) (b x : ℚ) : b ≤ if c then max b x else b := by
  cases c <;> simp

theorem managerDecision_ne_APPROVED (docs_ok : Bool) (recommendation : String)
    (fraud_score : ℚ) (fraud_decision : String) (warnings : List String)
    (h : Rat.divInt 7 10 ≤ fraud_score) :
    managerDecision docs_ok recommendation fraud_score fraud_decision warnings ≠ "APPROVED" := by
  unfold managerDecision
  split
  · decide
  · split
    · decide
    · have : (decide (Rat.divInt 7 10 ≤ fraud_score) || decide (fraud_decision = "SUSPECT") ||
          decide (recommendation = "SUSPECT")) = true := by
        simp [h]
      rw [if_pos this]
      decide

theorem merged_docs_ok_eq (pre : PreFindings) (textOnly : TextOnlyFindings)
    (llm : LlmFindings) (fraud_score : ℚ) :
    merged_docs_ok pre textOnly llm fraud_score =
      ((merged_required_missing pre textOnly llm fraud_score).isEmpty &&
        !blocker_present pre textOnly llm fraud_score) := by
  unfold merged_docs_ok
  cases hb : blocker_present pre textOnly llm fraud_score <;>
    cases hm : (merged_required_missing pre textOnly llm fraud_score).isEmpty <;> simp [hb, hm]

theorem merged_recommendation_eq (pre : PreFindings) (textOnly : TextOnlyFindings)
    (llm : LlmFindings) (fraud_score : ℚ) :
    merged_recommendation pre textOnly llm fraud_score =
      (if blocker_present pre textOnly llm fraud_score then "REJECT"
       else if !(merged_required_missing pre textOnly llm fraud_score).isEmpty then
         "NEED_MORE_DOCUMENTS"
       else "APPROVE") := by
  unfold merged_recommendation
  rw [merged_docs_ok_eq]
  cases hb : blocker_present pre textOnly llm fraud_score <;>
    cases hm : (merged_required_missing pre textOnly llm fraud_score).isEmpty <;> simp [hb, hm]

theorem risk_bump_ge_of_critical {s : ClaimState} {v : ValidationResult}
    (hv : s.validation = some v)
    (he : "RC/Policy/FIR vehicle mismatch" ∈ v.errors) :
    Rat.divInt 7 10 ≤ risk_bump_from_validation s := by
  unfold risk_bump_from_validation
  rw [hv]
  have hany : v.errors.any (fun e => decide (e ∈ criticalErrors)) = true := by
    rw [List.any_eq_true]
    exact ⟨_, he, by decide⟩
  simp only [hany, if_true]
  apply le_clamp01_of_le (by decide)
  split_ifs <;> simp [le_max_iff]

/-! ## Claims -/

theorem finalize_decision_iff (fs : ℚ) :
    (finalize_decision fs = "SUSPECT" ↔ (0.6:ℚ) < fs) ∧
    (finalize_decision fs = "SAFE" ↔ fs < (0.3:ℚ)) ∧
    (finalize_decision fs = "MODERATE" ↔ ((0.3:ℚ) ≤ fs ∧ fs ≤ (0.6:ℚ))) := by
  have e35 : Rat.divInt 3 5 = (0.6:ℚ) := by rw [Rat.divInt_eq_div]; norm_num
  have e310 : Rat.divInt 3 10 = (0.3:ℚ) := by rw [Rat.divInt_eq_div]; norm_num
  unfold finalize_decision
  rw [e35, e310]
  by_cases h1 : (0.6:ℚ) < fs
  · rw [if_pos h1]
    exact ⟨iff_of_true rfl h1,
      iff_of_false (by decide) (by intro h; linarith),
      iff_of_false (by decide) (by intro h; linarith [h.2])⟩
  · rw [if_neg h1]
    push_neg at h1
    by_cases h2 : (0.3:ℚ) ≤ fs
    · rw [if_pos h2]
      exact ⟨iff_of_false (by decide) (by intro h; linarith),
        iff_of_false (by decide) (by intro h; linarith),
        iff_of_true rfl ⟨h2, h1⟩⟩
    · rw [if_neg h2]
      push_neg at h2
      exact ⟨iff_of_false (by decide) (by intro h; linarith),
        iff_of_true rfl h2,
        iff_of_false (by decide) (by intro h; linarith [h.1])⟩

/-- C2: for every input to the fraud scorer (any post-parse LLM score and
decision, any validation findings, any claim text), the final fraud score
lies in [0,1], and the final decision satisfies `score > 0.6 ↔ SUSPECT`,
`score < 0.3 ↔ SAFE`, and otherwise MODERATE. -/
theorem C2_fraud_score_decision_mapping (o : FraudOracles) (s : ClaimState)
    (llmScore : ℚ) (llmDecision : String)
    (hmot : pyLower s.claim_type = "motor") :
    ∃ fs, (fraud_agent o s llmScore llmDecision).fraud_score = some fs ∧
      0 ≤ fs ∧ fs ≤ 1 ∧
      ((fraud_agent o s llmScore llmDecision).fraud_decision = some "SUSPECT" ↔ (0.6:ℚ) < fs) ∧
      ((fraud_agent o s llmScore llmDecision).fraud_decision = some "SAFE" ↔ fs < (0.3:ℚ)) ∧
      ((fraud_agent o s llmScore llmDecision).fraud_decision = some "MODERATE" ↔
        ((0.3:ℚ) ≤ fs ∧ fs ≤ (0.6:ℚ))) := by
  unfold fraud_agent
  simp only [hmot, ne_eq, not_true_eq_false, if_false, Option.some.injEq]
  refine ⟨_, rfl, round2_nonneg (clamp01_nonneg _), round2_le_one (clamp01_le_one _),
    ?_, ?_, ?_⟩
  · exact (finalize_decision_iff _).1
  · exact (finalize_decision_iff _).2.1
  · exact (finalize_decision_iff _).2.2

/-- C4: the decision state machine, as a function of
(docs_ok, recommendation, fraud score, fraud decision, warnings), produces
exactly: PENDING_DOCUMENTS when docs_ok is false or recommendation is
NEED_MORE_DOCUMENTS; else REJECTED when recommendation is REJECT; else
ESCALATED_TO_SIU when fraud_score ≥ 0.70 or fraud decision/recommendation
is SUSPECT, or any warning is present; else APPROVED. -/
theorem C4_decision_state_machine (docs_ok : Bool) (recommendation : String)
    (fraud_score : ℚ) (fraud_decision : String) (warnings : List String) :
    (managerDecision docs_ok recommendation fraud_score fraud_decision warnings =
        "PENDING_DOCUMENTS" ↔
      (docs_ok = false ∨ recommendation = "NEED_MORE_DOCUMENTS")) ∧
    (managerDecision docs_ok recommendation fraud_score fraud_decision warnings =
        "REJECTED" ↔
      (docs_ok = true ∧ recommendation ≠ "NEED_MORE_DOCUMENTS" ∧
        recommendation = "REJECT")) ∧
    (managerDecision docs_ok recommendation fraud_score fraud_decision warnings =
        "ESCALATED_TO_SIU" ↔
      (docs_ok = true ∧ recommendation ≠ "NEED_MORE_DOCUMENTS" ∧
        recommendation ≠ "REJECT" ∧
        ((0.7:ℚ) ≤ fraud_score ∨ fraud_decision = "SUSPECT" ∨
          recommendation = "SUSPECT" ∨ warnings ≠ []))) ∧
    (managerDecision docs_ok recommendation fraud_score fraud_decision warnings =
        "APPROVED" ↔
      (docs_ok = true ∧ recommendation ≠ "NEED_MORE_DOCUMENTS" ∧
        recommendation ≠ "REJECT" ∧ fraud_score < (0.7:ℚ) ∧
        fraud_decision ≠ "SUSPECT" ∧ recommendation ≠ "SUSPECT" ∧ warnings = [])) := by
  have e710 : Rat.divInt 7 10 = (0.7:ℚ) := by rw [Rat.divInt_eq_div]; norm_num
  unfold managerDecision
  rw [e710]
  cases docs_ok <;>
    split_ifs with h1 h2 h3 h4 <;>
    refine ⟨?_, ?_, ?_, ?_⟩ <;>
    simp_all only [Bool.not_true, Bool.not_false, Bool.true_or, Bool.false_or,
      Bool.or_eq_true, decide_eq_true_eq, Bool.not_eq_true, Bool.not_eq_true',
      Bool.not_eq_false', not_or, not_le,
      List.isEmpty_eq_true, List.isEmpty_eq_false, ne_eq, not_false_eq_true,
      not_true_eq_false] <;>
    first
      | (apply iff_of_true rfl; tauto)
      | (apply iff_of_false (by decide); tauto)
      | tauto
      | decide
      | (apply iff_of_false (by decide); rintro ⟨-, -, -, hlt, hfd, hrec, -⟩;
         rcases h3 with (h | h) | h <;> first | linarith | exact hfd h | exact hrec h)
      | (apply iff_of_false (by decide); rintro ⟨-, -, -, h | h | h | h⟩ <;>
         first | (rcases h3 with ⟨⟨hlt, -⟩, -⟩; linarith) | exact h)

/-- C8 (amended): for a non-motor claim the fraud scorer leaves all fraud
fields unset and performs no scoring, but it does NOT return the state
verbatim: the normalisation step has already stripped the three text
fields.  On already-stripped input it is the identity. -/
theorem C8_nonmotor_passthrough (o : FraudOracles) (s : ClaimState)
    (llmScore : ℚ) (llmDecision : String)
    (hmot : pyLower s.claim_type ≠ "motor") :
    fraud_agent o s llmScore llmDecision =
      { s with customer_name := pyStrip s.customer_name,
               extracted_text := pyStrip s.extracted_text,
               document_extracted_text := pyStrip s.document_extracted_text } ∧
    (fraud_agent o s llmScore llmDecision).fraud_score = s.fraud_score ∧
    (fraud_agent o s llmScore llmDecision).fraud_decision = s.fraud_decision ∧
    (fraud_agent o s llmScore llmDecision).fraud_checked = s.fraud_checked := by
  unfold fraud_agent
  rw [if_pos hmot]
  exact ⟨rfl, rfl, rfl, rfl⟩

/-- C8, witness: the non-motor passthrough theorem applied to a concrete
health claim. -/
theorem C8_nonmotor_passthrough_witness :
    pyLower stateHealth.claim_type ≠ "motor" ∧
    (fraud_agent oTriv stateHealth 0 "SAFE" =
      { stateHealth with customer_name := pyStrip stateHealth.customer_name,
                         extracted_text := pyStrip stateHealth.extracted_text,
                         document_extracted_text :=
                           pyStrip stateHealth.document_extracted_text } ∧
    (fraud_agent oTriv stateHealth 0 "SAFE").fraud_score = stateHealth.fraud_score ∧
    (fraud_agent oTriv stateHealth 0 "SAFE").fraud_decision = stateHealth.fraud_decision ∧
    (fraud_agent oTriv stateHealth 0 "SAFE").fraud_checked = stateHealth.fraud_checked) :=
  ⟨by decide, C8_nonmotor_passthrough oTriv stateHealth 0 "SAFE" (by decide)⟩

/-- C8, counterexample to the claim as stated: on a health claim with an
untrimmed customer name the scorer returns a state that differs from its
input (the name is stripped), although all fraud fields stay unset. -/
theorem C8_counterexample :
    fraud_agent oTriv stateHealth 0 "SAFE" ≠ stateHealth ∧
    (fraud_agent oTriv stateHealth 0 "SAFE").customer_name = "Bob" ∧
    stateHealth.customer_name = " Bob " ∧
    (fraud_agent oTriv stateHealth 0 "SAFE").fraud_score = none ∧
    (fraud_agent oTriv stateHealth 0 "SAFE").fraud_checked = false :=
  ⟨by decide, by decide, by decide, by decide, by decide⟩

/-- C10: when a terminal decision (APPROVED/REJECTED/ESCALATED_TO_SIU) has
been made, the fraud score is below 0.7, and the validation recommendation
is none of SUSPECT/REJECT/NEED_MORE_DOCUMENTS, `finalize_claim` returns
the state unchanged; and an existing PENDING_DOCUMENTS decision is always
re-derived from the current inputs. -/
theorem C10_finalize_claim_resume (s : ClaimState)
    (hmade : s.claim_decision_made = true)
    (hfin : s.final_decision = some "APPROVED" ∨ s.final_decision = some "REJECTED" ∨
      s.final_decision = some "ESCALATED_TO_SIU")
    (hfs : (s.fraud_score).getD 0 < Rat.divInt 7 10)
    (hr1 : pyUpper ((s.validation.map (fun v => v.recommendation)).getD "") ≠ "SUSPECT")
    (hr2 : pyUpper ((s.validation.map (fun v => v.recommendation)).getD "") ≠ "REJECT")
    (hr3 : pyUpper ((s.validation.map (fun v => v.recommendation)).getD "") ≠
      "NEED_MORE_DOCUMENTS") :
    finalize_claim s = s ∧
    ∀ s2 : ClaimState, s2.final_decision = some "PENDING_DOCUMENTS" →
      (finalize_claim s2).final_decision =
        some (managerDecision ((s2.validation.map (fun v => v.docs_ok)).getD false)
          (pyUpper ((s2.validation.map (fun v => v.recommendation)).getD ""))
          ((s2.fraud_score).getD 0)
          (pyUpper ((s2.fraud_decision).getD ""))
          ((s2.validation.map (fun v => v.warnings)).getD [])) ∧
      (finalize_claim s2).claim_decision_made = true := by
  constructor
  · unfold finalize_claim
    rcases hfin with h | h | h <;>
      simp [h, hmade, hfs, hr1, hr2, hr3]
  · intro s2 h2
    unfold finalize_claim
    simp [h2]

/-- C10, witness: the resume no-op applied to a finalized APPROVED state
with fraud score 0.5 and recommendation APPROVE. -/
theorem C10_finalize_claim_resume_witness :
    stateResume.claim_decision_made = true ∧
    (stateResume.final_decision = some "APPROVED" ∨
      stateResume.final_decision = some "REJECTED" ∨
      stateResume.final_decision = some "ESCALATED_TO_SIU") ∧
    (stateResume.fraud_score).getD 0 < Rat.divInt 7 10 ∧
    finalize_claim stateResume = stateResume :=
  ⟨by decide, by decide, by decide,
    (C10_finalize_claim_resume stateResume (by decide) (by decide) (by decide)
      (by decide) (by decide) (by decide)).1⟩

theorem merged_final_present_eq (pre : PreFindings) (t : TextOnlyFindings)
    (llm : LlmFindings) (fs : ℚ) {l : DocLabel} (hl : l ∈ mandatoryLabels) :
    merged_final_present pre t llm fs l =
      (decide (l ∉ pre.required_missing) ||
       decide (DocLabel.str l ∉ llm.required_missing) ||
       (t.docs l).present) := by
  unfold merged_final_present
  have h1 : (l ∉ mandatoryLabels.filter
      (fun x => !(merge_text_only_presence pre.required_missing t fs x))) ↔
      merge_text_only_presence pre.required_missing t fs l = true := by
    simp [List.mem_filter, hl]
  rw [show (decide (l ∉ mandatoryLabels.filter
      (fun x => !(merge_text_only_presence pre.required_missing t fs x)))) =
      decide (merge_text_only_presence pre.required_missing t fs l = true) from
    decide_eq_decide.mpr h1]
  unfold merge_text_only_presence
  cases hp : (t.docs l).present <;> simp [hp] <;>
    cases hq : decide (l ∉ pre.required_missing) <;> simp [hq]

/-- C1 (amended): in the final merge the presence flag of each label is
`deterministic_present OR llm_full_present OR llm_text_only_present` —
the raw text-only `present` flag is OR-ed in without the confidence/
citation gate (the gate only shapes the intermediate adjusted pre-missing
list, which the OR absorbs) — and `required_missing` is exactly the labels
whose flag is false. -/
theorem C1_merged_presence_amended (pre : PreFindings) (t : TextOnlyFindings)
    (llm : LlmFindings) (fs : ℚ) :
    (mergeFindings pre t llm fs).required_missing =
      (mandatoryLabels.filter (fun l =>
        !(decide (l ∉ pre.required_missing) ||
          decide (DocLabel.str l ∉ llm.required_missing) ||
          (t.docs l).present))).map DocLabel.str := by
  show merged_required_missing pre t llm fs = _
  unfold merged_required_missing
  congr 1
  apply List.filter_congr
  intro l hl
  rw [merged_final_present_eq pre t llm fs hl]

/-- C1, counterexample to the claim as stated: FIR has no marker, the
full-validation pass reports it missing, and the text-only pass asserts
presence with confidence 0 and no citations.  The spec's formula says the
merged flag is false (so FIR must be in `required_missing`), but the code
treats the label as present and returns an empty `required_missing`. -/
theorem C1_counterexample :
    DocLabel.FIR ∈ (prevalidate exBase "" docsNoFIR "").required_missing ∧
    specMergedPresent (prevalidate exBase "" docsNoFIR "") tC1fix llmC1fix 0 .FIR = false ∧
    "FIR" ∈ specRequiredMissing (prevalidate exBase "" docsNoFIR "") tC1fix llmC1fix 0 ∧
    (mergeFindings (prevalidate exBase "" docsNoFIR "") tC1fix llmC1fix 0).required_missing
      = [] :=
  ⟨by decide, by decide, by decide, by decide⟩

/-- C3: for every Findings object produced by the deterministic rule
evaluator and every one produced by the merge engine, `docs_ok = true`
implies `required_missing` is empty and neither critical-blocker error is
present. -/
theorem C3_docs_ok_invariant :
    (∀ (ex : Extractors) (a b c : String),
      (prevalidate ex a b c).docs_ok = true →
        (prevalidate ex a b c).required_missing = [] ∧
        "Driving License invalid/expired" ∉ (prevalidate ex a b c).errors ∧
        "Policy expired or not covering OD" ∉ (prevalidate ex a b c).errors) ∧
    (∀ (pre : PreFindings) (t : TextOnlyFindings) (llm : LlmFindings) (fs : ℚ),
      (mergeFindings pre t llm fs).docs_ok = true →
        (mergeFindings pre t llm fs).required_missing = [] ∧
        "Driving License invalid/expired" ∉ (mergeFindings pre t llm fs).errors ∧
        "Policy expired or not covering OD" ∉ (mergeFindings pre t llm fs).errors) := by
  constructor
  · intro ex a b c h
    have hdef : (prevalidate ex a b c).docs_ok =
        ((prevalidate ex a b c).errors.isEmpty &&
         (prevalidate ex a b c).required_missing.isEmpty) := rfl
    rw [hdef, Bool.and_eq_true, List.isEmpty_eq_true, List.isEmpty_eq_true] at h
    refine ⟨h.2, ?_, ?_⟩ <;> rw [h.1] <;> exact List.not_mem_nil _
  · intro pre t llm fs h
    have hdocs : (mergeFindings pre t llm fs).docs_ok = merged_docs_ok pre t llm fs := rfl
    rw [hdocs, merged_docs_ok_eq, Bool.and_eq_true, List.isEmpty_eq_true,
      Bool.not_eq_true'] at h
    have hb := h.2
    unfold blocker_present at hb
    rw [Bool.or_eq_false_iff, decide_eq_false_iff_not, decide_eq_false_iff_not] at hb
    exact ⟨h.1, hb.2, hb.1⟩

/-- C3, witness: the invariant applied to a concrete clean deterministic
run and a concrete clean merge. -/
theorem C3_docs_ok_invariant_witness :
    ((prevalidate exBase "" docsAll "").docs_ok = true ∧
      (prevalidate exBase "" docsAll "").required_missing = [] ∧
      "Driving License invalid/expired" ∉ (prevalidate exBase "" docsAll "").errors ∧
      "Policy expired or not covering OD" ∉ (prevalidate exBase "" docsAll "").errors) ∧
    ((mergeFindings (prevalidate exBase "" docsAll "") tTriv llmApprove 0).docs_ok = true ∧
      (mergeFindings (prevalidate exBase "" docsAll "") tTriv llmApprove 0).required_missing
        = [] ∧
      "Driving License invalid/expired" ∉
        (mergeFindings (prevalidate exBase "" docsAll "") tTriv llmApprove 0).errors ∧
      "Policy expired or not covering OD" ∉
        (mergeFindings (prevalidate exBase "" docsAll "") tTriv llmApprove 0).errors) :=
  ⟨⟨by decide, C3_docs_ok_invariant.1 exBase "" docsAll "" (by decide)⟩,
   ⟨by decide, C3_docs_ok_invariant.2 (prevalidate exBase "" docsAll "") tTriv llmApprove 0
      (by decide)⟩⟩

/-- C5 (amended): the final merged recommendation is determined entirely
by the critical-blocker errors and the final `required_missing` —
REJECT exactly when a blocker error is present, else NEED_MORE_DOCUMENTS
exactly when a document is missing, else APPROVE (so the pairwise
severity-max of the two source recommendations is always overridden, and
the merged result can be strictly below that maximum); APPROVE holds
exactly when `docs_ok` holds with nothing missing. -/
theorem C5_recommendation_amended (pre : PreFindings) (t : TextOnlyFindings)
    (llm : LlmFindings) (fs : ℚ) :
    ((mergeFindings pre t llm fs).recommendation = "REJECT" ↔
      ("Policy expired or not covering OD" ∈ (mergeFindings pre t llm fs).errors ∨
       "Driving License invalid/expired" ∈ (mergeFindings pre t llm fs).errors)) ∧
    ((mergeFindings pre t llm fs).recommendation = "NEED_MORE_DOCUMENTS" ↔
      (¬("Policy expired or not covering OD" ∈ (mergeFindings pre t llm fs).errors ∨
         "Driving License invalid/expired" ∈ (mergeFindings pre t llm fs).errors) ∧
       (mergeFindings pre t llm fs).required_missing ≠ [])) ∧
    ((mergeFindings pre t llm fs).recommendation = "APPROVE" ↔
      (¬("Policy expired or not covering OD" ∈ (mergeFindings pre t llm fs).errors ∨
         "Driving License invalid/expired" ∈ (mergeFindings pre t llm fs).errors) ∧
       (mergeFindings pre t llm fs).required_missing = [])) ∧
    ((mergeFindings pre t llm fs).recommendation = "APPROVE" ↔
      ((mergeFindings pre t llm fs).docs_ok = true ∧
       (mergeFindings pre t llm fs).required_missing = [])) := by
  have hrec : (mergeFindings pre t llm fs).recommendation =
      merged_recommendation pre t llm fs := rfl
  have hmiss : (mergeFindings pre t llm fs).required_missing =
      merged_required_missing pre t llm fs := rfl
  have herr : (mergeFindings pre t llm fs).errors = merged_errors pre t llm fs := rfl
  have hdocs : (mergeFindings pre t llm fs).docs_ok = merged_docs_ok pre t llm fs := rfl
  have hblock : (("Policy expired or not covering OD" ∈ merged_errors pre t llm fs ∨
      "Driving License invalid/expired" ∈ merged_errors pre t llm fs)) ↔
      blocker_present pre t llm fs = true := by
    unfold blocker_present
    simp
  rw [hrec, hmiss, herr, hdocs, merged_recommendation_eq, merged_docs_ok_eq]
  cases hb : blocker_present pre t llm fs <;>
    cases hm : (merged_required_missing pre t llm fs).isEmpty <;>
    simp_all [List.isEmpty_eq_true, List.isEmpty_eq_false]

/-- C5, counterexample to the claim as stated: a deterministic REJECT
(vehicle-mismatch critical error, nothing missing) merged with an LLM
APPROVE yields final recommendation APPROVE — strictly below the
severity maximum REJECT of the two inputs. -/
theorem C5_counterexample :
    (prevalidate exMismatch "" docsAll "").recommendation = "REJECT" ∧
    llmApprove.recommendation = "APPROVE" ∧
    (mergeFindings (prevalidate exMismatch "" docsAll "") tTriv llmApprove 0).recommendation
      = "APPROVE" ∧
    RECOMMENDATION_ORDER
        (mergeFindings (prevalidate exMismatch "" docsAll "") tTriv llmApprove 0).recommendation <
      max (RECOMMENDATION_ORDER (prevalidate exMismatch "" docsAll "").recommendation)
        (RECOMMENDATION_ORDER llmApprove.recommendation) :=
  ⟨by decide, by decide, by decide, by decide⟩

theorem mem_ite_list {c : Prop} [Decidable c] {x : String} {l : List String} :
    (x ∈ if c then l else []) ↔ (c ∧ x ∈ l) := by
  split
  · simp [*]
  · simp [*]

theorem dl_error_only_from_dl_step (ex : Extractors) (a b : String) :
    "Driving License invalid/expired" ∉ prePolicyErrors ex a b ∧
    "Driving License invalid/expired" ∉ preVehicleErrors ex b ∧
    "Driving License invalid/expired" ∉ preNarrativeErrors ex a b ∧
    "Driving License invalid/expired" ∉ preFirErrors b ∧
    "Driving License invalid/expired" ∉ preFakeErrors ex b := by
  refine ⟨?_, ?_, ?_, ?_, ?_⟩
  · unfold prePolicyErrors
    split
    · simp only [List.mem_append, not_or]
      constructor
      · split
        · split <;> decide
        · decide
      · split <;> decide
    · decide
  · unfold preVehicleErrors
    split <;> decide
  · unfold preNarrativeErrors
    split
    · split <;> decide
    · decide
  · unfold preFirErrors
    split <;> decide
  · unfold preFakeErrors
    split <;> decide

theorem dl_warning_only_from_dl_step (ex : Extractors) (a b c : String) :
    "Driving License details unclear" ∉ prePolicyWarnings ex a b ∧
    "Driving License details unclear" ∉ preNameWarnings ex b c ∧
    "Driving License details unclear" ∉ preEstimateWarnings ex a b := by
  refine ⟨?_, ?_, ?_⟩
  · unfold prePolicyWarnings
    split
    · simp only [List.mem_append, not_or]
      constructor
      · split <;> decide
      · split
        · decide
        · split <;> decide
    · split <;> decide
  · unfold preNameWarnings
    split
    · split <;> decide
    · decide
  · unfold preEstimateWarnings
    split
    · simp only [List.mem_append, not_or]
      and_intros <;> (repeat' split) <;> decide
    · decide

/-- C7 (amended): in the deterministic rule evaluator, the error
"Driving License invalid/expired" is added exactly when both an incident
date and a license expiry date parse and the expiry precedes the incident.
When the license section text is present but no expiry parses, the
evaluator adds nothing — no error AND no warning (the
"Driving License details unclear" warning fires only when the section
body is empty while its marker is present). -/
theorem C7_dl_parse_amended (ex : Extractors) (a b c : String) :
    (preBlock ex b .DRIVING_LICENSE ≠ "" →
      (("Driving License invalid/expired" ∈ (prevalidate ex a b c).errors) ↔
        (∃ inc v, preIncidentDate ex a b = some inc ∧ preDlValidTo ex b = some v ∧
          v < inc)) ∧
      "Driving License details unclear" ∉ (prevalidate ex a b c).warnings) ∧
    (preBlock ex b .DRIVING_LICENSE = "" →
      ("Driving License invalid/expired" ∉ (prevalidate ex a b c).errors ∧
        ("Driving License details unclear" ∈ (prevalidate ex a b c).warnings ↔
          DocLabel.DRIVING_LICENSE ∉ (prevalidate ex a b c).required_missing))) := by
  have e_err : (prevalidate ex a b c).errors = preErrors ex a b := rfl
  have e_warn : (prevalidate ex a b c).warnings = preWarnings ex a b c := rfl
  have e_miss : (prevalidate ex a b c).required_missing = preRequiredMissing b := rfl
  have hno := dl_error_only_from_dl_step ex a b
  have hnw := dl_warning_only_from_dl_step ex a b c
  constructor
  · intro hdl
    constructor
    · rw [e_err]
      unfold preErrors
      simp only [List.mem_append, hno.1, hno.2.1, hno.2.2.1, hno.2.2.2.1, hno.2.2.2.2,
        or_false]
      unfold preDlErrors
      rw [if_pos hdl]
      rcases hinc : preIncidentDate ex a b with _ | inc <;>
        rcases hdlv : preDlValidTo ex b with _ | v <;>
        simp [mem_ite_list]
    · rw [e_warn]
      unfold preWarnings
      simp only [List.mem_append, not_or]
      refine ⟨⟨⟨?_, hnw.1⟩, hnw.2.1⟩, hnw.2.2⟩
      unfold preDlWarnings
      rw [if_pos hdl]
      exact List.not_mem_nil _
  · intro hdl
    constructor
    · rw [e_err]
      unfold preErrors
      simp only [List.mem_append, hno.1, hno.2.1, hno.2.2.1, hno.2.2.2.1, hno.2.2.2.2,
        or_false]
      unfold preDlErrors
      rw [if_neg (by simp [hdl])]
      exact List.not_mem_nil _
    · rw [e_warn, e_miss]
      unfold preWarnings
      simp only [List.mem_append, hnw.1, hnw.2.1, hnw.2.2, or_false]
      unfold preDlWarnings
      rw [if_neg (by simp [hdl])]
      by_cases hm : DocLabel.DRIVING_LICENSE ∉ preRequiredMissing b
      · rw [if_pos hm]
        simp [hm]
      · rw [if_neg hm]
        simp [hm]

/-- C7, witness: the amended DL rule applied to a concrete run whose DL
block is present with an unparseable expiry and a parsed incident date. -/
theorem C7_dl_parse_amended_witness :
    preBlock exDl docsAll .DRIVING_LICENSE ≠ "" ∧
    ((("Driving License invalid/expired" ∈ (prevalidate exDl "" docsAll "").errors) ↔
      (∃ inc v, preIncidentDate exDl "" docsAll = some inc ∧
        preDlValidTo exDl docsAll = some v ∧ v < inc)) ∧
     "Driving License details unclear" ∉ (prevalidate exDl "" docsAll "").warnings) :=
  ⟨by decide, (C7_dl_parse_amended exDl "" docsAll "").1 (by decide)⟩

/-- C7, counterexample to the claim as stated: the DL section text is
present, no expiry date parses from it (both extractors return `none`),
an incident date is available — and the evaluator adds NO warning at all
(and no error): its whole warning and error lists are empty, where the
claim requires a warning. -/
theorem C7_counterexample :
    preBlock exDl docsAll .DRIVING_LICENSE = "DL No: unreadable" ∧
    preDlValidTo exDl docsAll = none ∧
    preIncidentDate exDl "" docsAll = some 100 ∧
    (prevalidate exDl "" docsAll "").warnings = [] ∧
    (prevalidate exDl "" docsAll "").errors = [] :=
  ⟨by decide, by decide, by decide, by decide, by decide⟩

/-- C6: whenever two or more distinct vehicle-registration tokens appear
across the FIR, RC and Policy blocks, the deterministic evaluator emits
the error "RC/Policy/FIR vehicle mismatch", the error survives the merge,
the fraud score is floored at 0.60 or above (in fact at 0.70), and the
decision state machine never returns APPROVED for the resulting state. -/
theorem C6_vehicle_mismatch_never_approved (ex : Extractors) (a b c : String)
    (t : TextOnlyFindings) (llm : LlmFindings) (fs0 : ℚ) (o : FraudOracles)
    (s : ClaimState) (llmScore : ℚ) (llmDecision : String)
    (hregs : 2 ≤ (preRegs ex b).length)
    (hmot : pyLower s.claim_type = "motor")
    (hval : s.validation = some (mergeFindings (prevalidate ex a b c) t llm fs0)) :
    "RC/Policy/FIR vehicle mismatch" ∈ (prevalidate ex a b c).errors ∧
    "RC/Policy/FIR vehicle mismatch" ∈
      (mergeFindings (prevalidate ex a b c) t llm fs0).errors ∧
    (∃ fsc, (fraud_agent o s llmScore llmDecision).fraud_score = some fsc ∧
      Rat.divInt 3 5 ≤ fsc) ∧
    (finalize_claim (fraud_agent o s llmScore llmDecision)).final_decision ≠
      some "APPROVED" := by
  have hpre : "RC/Policy/FIR vehicle mismatch" ∈ (prevalidate ex a b c).errors := by
    show _ ∈ preErrors ex a b
    unfold preErrors
    have hveh : "RC/Policy/FIR vehicle mismatch" ∈ preVehicleErrors ex b := by
      unfold preVehicleErrors
      rw [if_pos hregs]
      exact List.mem_singleton.mpr rfl
    simp [List.mem_append, hveh]
  have hmerged : "RC/Policy/FIR vehicle mismatch" ∈
      (mergeFindings (prevalidate ex a b c) t llm fs0).errors := by
    show _ ∈ merged_errors (prevalidate ex a b c) t llm fs0
    unfold merged_errors
    have hin : "RC/Policy/FIR vehicle mismatch" ∈
        pySortedSet ((prevalidate ex a b c).errors ++ llm.errors ++ t.errors) := by
      rw [mem_pySortedSet]
      simp [List.mem_append, hpre]
    split
    · exact List.mem_filter.mpr ⟨hin, by decide⟩
    · exact hin
  refine ⟨hpre, hmerged, ?_⟩
  unfold fraud_agent
  rw [hmot]
  simp only [ne_eq, not_true_eq_false, if_false]
  have hbump : Rat.divInt 7 10 ≤ risk_bump_from_validation
      { s with customer_name := pyStrip s.customer_name,
               extracted_text := pyStrip s.extracted_text,
               document_extracted_text := pyStrip s.document_extracted_text } :=
    risk_bump_ge_of_critical hval hmerged
  have h70 : Rat.divInt 7 10 = ((70:ℤ):ℚ)/100 := by rw [Rat.divInt_eq_div]; norm_num
  have hF : Rat.divInt 7 10 ≤ round2 (clamp01 (max (clamp01 llmScore)
      (max (risk_bump_from_validation
        { s with customer_name := pyStrip s.customer_name,
                 extracted_text := pyStrip s.extracted_text,
                 document_extracted_text := pyStrip s.document_extracted_text })
        (risk_bump_from_heuristics o
        { s with customer_name := pyStrip s.customer_name,
                 extracted_text := pyStrip s.extracted_text,
                 document_extracted_text := pyStrip s.document_extracted_text })))) := by
    rw [h70]
    apply round2_ge
    rw [← h70]
    apply le_clamp01_of_le (by decide)
    exact le_trans hbump (le_trans (le_max_left _ _) (le_max_right _ _))
  constructor
  · exact ⟨_, rfl, le_trans (by decide : Rat.divInt 3 5 ≤ Rat.divInt 7 10) hF⟩
  · unfold finalize_claim
    have hlt : (round2 (clamp01 (max (clamp01 llmScore)
        (max (risk_bump_from_validation
          { s with customer_name := pyStrip s.customer_name,
                   extracted_text := pyStrip s.extracted_text,
                   document_extracted_text := pyStrip s.document_extracted_text })
          (risk_bump_from_heuristics o
          { s with customer_name := pyStrip s.customer_name,
                   extracted_text := pyStrip s.extracted_text,
                   document_extracted_text := pyStrip s.document_extracted_text }))))
        < Rat.divInt 7 10) = False := eq_false (not_lt.mpr hF)
    simp only [Option.getD_some, hlt, decide_False, Bool.false_and, Bool.and_false,
      Bool.false_eq_true, if_false, Option.some.injEq]
    intro heq
    refine managerDecision_ne_APPROVED _ _ _ _ _ ?_ heq
    exact hF

/-- C6, witness: the mismatch pipeline applied to a concrete run with two
registration tokens in the FIR block. -/
theorem C6_vehicle_mismatch_never_approved_witness :
    2 ≤ (preRegs exMismatch docsAll).length ∧
    pyLower stateMismatch.claim_type = "motor" ∧
    ("RC/Policy/FIR vehicle mismatch" ∈ (prevalidate exMismatch "" docsAll "").errors ∧
     "RC/Policy/FIR vehicle mismatch" ∈
       (mergeFindings (prevalidate exMismatch "" docsAll "") tTriv llmApprove 0).errors ∧
     (∃ fsc, (fraud_agent oTriv stateMismatch 0 "SAFE").fraud_score = some fsc ∧
       Rat.divInt 3 5 ≤ fsc) ∧
     (finalize_claim (fraud_agent oTriv stateMismatch 0 "SAFE")).final_decision ≠
       some "APPROVED") :=
  ⟨by decide, by decide,
    C6_vehicle_mismatch_never_approved exMismatch "" docsAll "" tTriv llmApprove 0 oTriv
      stateMismatch 0 "SAFE" (by decide) (by decide) rfl⟩

theorem checkedParse_is_expected (o : JsonOracles) (s expect : String) {j : Json}
    (h : checkedParse o s expect = some j) : is_expected_type j expect = true := by
  unfold checkedParse at h
  rcases htl : o.try_json_loads s with _ | j0 <;> rw [htl] at h <;> dsimp only at h
  · exact absurd h (by simp)
  · split at h
    · rename_i hcond
      cases h
      simp only [Bool.and_eq_true] at hcond
      exact hcond.2
    · exact absurd h (by simp)

theorem balancedAttempt_is_expected (o : JsonOracles) (extract : String → Option String)
    (s expect : String) {j : Json}
    (h : balancedAttempt o extract s expect = some j) : is_expected_type j expect = true := by
  unfold balancedAttempt at h
  rcases hx : extract s with _ | t <;> rw [hx] at h <;> dsimp only at h
  · exact absurd h (by simp)
  · split at h
    · exact checkedParse_is_expected o t expect h
    · exact absurd h (by simp)

theorem jsonLabeledAttempt_is_expected (o : JsonOracles) (expect : String)
    (b : Option String × String) {j : Json}
    (h : jsonLabeledAttempt o expect b = some j) : is_expected_type j expect = true := by
  unfold jsonLabeledAttempt at h
  split at h
  · exact checkedParse_is_expected o _ expect h
  · exact absurd h (by simp)

theorem orElse_some {α : Type} {a : Option α} {f : Unit → Option α} {j : α}
    (h : a.orElse f = some j) : a = some j ∨ f () = some j := by
  cases a <;> simp_all [Option.orElse]

theorem blockAttempt_is_expected (o : JsonOracles) (expect content : String) {j : Json}
    (h : blockAttempt o expect content = some j) : is_expected_type j expect = true := by
  unfold blockAttempt at h
  rcases orElse_some h with h1 | h1
  · exact checkedParse_is_expected o _ expect h1
  · rcases orElse_some h1 with h2 | h2
    · split at h2
      · exact balancedAttempt_is_expected o _ _ expect h2
      · exact absurd h2 (by simp)
    · split at h2
      · exact balancedAttempt_is_expected o _ _ expect h2
      · exact absurd h2 (by simp)

theorem safeJsonAttempt_is_expected (o : JsonOracles) (s expect : String) {j : Json}
    (h : safeJsonAttempt o s expect = some j) : is_expected_type j expect = true := by
  unfold safeJsonAttempt at h
  rcases orElse_some h with h1 | h1
  · exact checkedParse_is_expected o _ expect h1
  · rcases orElse_some h1 with h2 | h2
    · obtain ⟨bl, _, hbl⟩ := List.exists_of_findSome?_eq_some h2
      exact jsonLabeledAttempt_is_expected o expect bl hbl
    · rcases orElse_some h2 with h3 | h3
      · obtain ⟨bl, _, hbl⟩ := List.exists_of_findSome?_eq_some h3
        exact blockAttempt_is_expected o expect bl.2 hbl
      · rcases orElse_some h3 with h4 | h4
        · split at h4
          · exact balancedAttempt_is_expected o _ _ expect h4
          · exact absurd h4 (by simp)
        · split at h4
          · exact balancedAttempt_is_expected o _ _ expect h4
          · exact absurd h4 (by simp)

/-- C9: for every input string (empty, non-JSON, prose-wrapped, fenced or
truncated) and every behaviour of the parsing helpers, `safe_json_parse`
returns either a parsed JSON value whose top-level type matches `expect`
or exactly the supplied fallback value; the embedding is total, so no
execution path can raise. -/
theorem C9_safe_json_parse_total {α : Type} (o : JsonOracles) (result : String)
    (fallback : α) (expect : String) (maxScanChars : Nat) :
    (∃ j, safe_json_parse o result fallback expect maxScanChars = Sum.inl j ∧
      is_expected_type j expect = true) ∨
    safe_json_parse o result fallback expect maxScanChars = Sum.inr fallback := by
  unfold safe_json_parse
  split
  · right
    rfl
  · rcases hatt : safeJsonAttempt o
        (pyTruncate (o.normalize_text (pyStrip result)) maxScanChars) expect with _ | j
    · right
      rfl
    · left
      exact ⟨j, rfl, safeJsonAttempt_is_expected o _ expect hatt⟩

/-- C2, witness: the score/decision mapping applied to a concrete motor
claim. -/
theorem C2_fraud_score_decision_mapping_witness :
    pyLower stateBase.claim_type = "motor" ∧
    (∃ fs, (fraud_agent oTriv stateBase 0 "SAFE").fraud_score = some fs ∧
      0 ≤ fs ∧ fs ≤ 1 ∧
      ((fraud_agent oTriv stateBase 0 "SAFE").fraud_decision = some "SUSPECT" ↔
        (0.6:ℚ) < fs) ∧
      ((fraud_agent oTriv stateBase 0 "SAFE").fraud_decision = some "SAFE" ↔
        fs < (0.3:ℚ)) ∧
      ((fraud_agent oTriv stateBase 0 "SAFE").fraud_decision = some "MODERATE" ↔
        ((0.3:ℚ) ≤ fs ∧ fs ≤ (0.6:ℚ)))) :=
  ⟨by decide, C2_fraud_score_decision_mapping oTriv stateBase 0 "SAFE" (by decide)⟩
